import Mathlib

/-!
Verification development for the `chistev/voice-recorder` recording-session
state machine (`src/main.py`).

The module-level globals of `main.py` that the recording screen uses
(`frames`, `stop_event`, `pause_event`, `playback_event`,
`recording_start_time`, `paused_duration`, `last_pause_time`,
`is_playing_preview`, `playback_paused`, `is_discarding`, `save_requested`,
plus the preview output stream's observable status) are modelled as one
record `SessionState`.  Wall-clock timestamps (`time.time()`) are modelled
as integers (seconds); `int(...)` truncation in the source is then the
identity, and all duration arithmetic is exact.  Audio chunks are byte
lists.  Each Python function of the session core becomes a pure Lean
function from a state (plus the current time, where the source reads
`time.time()`) to a new state together with its observable effects.
-/

namespace VoiceRecorder

/-- One raw audio chunk (a byte buffer), as delivered by the audio device. -/
abbrev Chunk := List Nat

/-- The four derived session modes returned by `get_current_state`
(`main.py` lines 349-357). -/
inductive SessionMode where
  | recording
  | recordingPaused
  | previewPlaying
  | previewPaused
deriving DecidableEq, Repr

/-- The recording-screen state: the module globals of `main.py` that the
session core reads and writes.  Field-by-field correspondence:
`frames` (line 94), `stop_event` (91), `pause_event` (92),
`playback_event` (93), `recording_start_time` (97), `paused_duration` (98),
`last_pause_time` (99, with `0` meaning "no pause currently open"),
`is_playing_preview` (103), `playback_paused` (104), `is_discarding` (105),
`save_requested` (106).  `preview_stream_exists` models
`preview_stream is not None`, `preview_stream_active` models
`preview_stream.is_active()`, and `preview_pos` models the read position of
the wave source the preview playback callback pulls from. -/
structure SessionState where
  frames : List Chunk
  stop_event : Bool
  pause_event : Bool
  playback_event : Bool
  recording_start_time : Int
  paused_duration : Int
  last_pause_time : Int
  is_playing_preview : Bool
  playback_paused : Bool
  preview_stream_exists : Bool
  preview_stream_active : Bool
  preview_pos : Nat
  is_discarding : Bool
  save_requested : Bool
deriving DecidableEq, Repr

/-- Observable effects of one keypress dispatch: whether the command was
rejected with a corrective hint, whether a `KeyboardInterrupt` was raised to
unwind the polling loop, and the audio body written to disk, if any. -/
structure Effects where
  rejected : Bool
  raised_interrupt : Bool
  wrote : Option (List Nat)
deriving DecidableEq, Repr

/-- No observable effect. -/
def noEffect : Effects := ⟨false, false, none⟩

/-- Capture delivery callback (`main.py` lines 116-126).  Returns the
output buffer handed back to the audio API, the `paComplete` flag, and the
updated state.  `stop_event` is checked first, then `pause_event`; otherwise
the delivered chunk is appended to `frames` under the lock. -/
def callback (in_data : Chunk) (frame_count channels : Nat)
    (s : SessionState) : Option Chunk × Bool × SessionState :=
  if s.stop_event then
    (none, true, s)
  else if s.pause_event then
    (some (List.replicate (frame_count * channels * 2) 0), false, s)
  else
    (none, false, { s with frames := s.frames ++ [in_data] })

/-- `pause_recording` (`main.py` lines 152-155): sets the pause flag and
records the pause-entry timestamp. -/
def pause_recording (now : Int) (s : SessionState) : SessionState :=
  { s with pause_event := true, last_pause_time := now }

/-- `resume_recording` (`main.py` lines 158-163): folds the open pause
interval into `paused_duration` (guarded by `last_pause_time > 0`), clears
the pause-entry timestamp and the pause flag. -/
def resume_recording (now : Int) (s : SessionState) : SessionState :=
  if s.last_pause_time > 0 then
    { s with paused_duration := s.paused_duration + (now - s.last_pause_time),
             last_pause_time := 0, pause_event := false }
  else
    { s with pause_event := false }

/-- `save_current_recording_to_temp` (`main.py` lines 166-178): under the
frames lock, returns `none` when the buffer is empty (no temp file is
created), otherwise the concatenated audio body written to the temp wave
file. -/
def save_current_recording_to_temp (s : SessionState) : Option (List Nat) :=
  if s.frames = [] then none else some s.frames.flatten

/-- Entry of `play_preview` (`main.py` lines 181-210): if the buffer is
empty no temp file exists and the function returns with the state
untouched; otherwise the preview flags are set and an output stream is
opened on the temp snapshot, its read position starting at 0. -/
def play_preview_start (s : SessionState) : SessionState :=
  match save_current_recording_to_temp s with
  | none => s
  | some _ =>
    { s with is_playing_preview := true, playback_paused := false,
             playback_event := false, preview_stream_exists := true,
             preview_stream_active := true, preview_pos := 0 }

/-- Exit of `play_preview` (`main.py` lines 217-225, the `finally` block):
the output stream is stopped and closed, the temp file removed, and
`is_playing_preview` reset.  The pause/duration bookkeeping of the
recording is untouched. -/
def play_preview_finish (s : SessionState) : SessionState :=
  { s with is_playing_preview := false, preview_stream_active := false }

/-- `stop_preview` (`main.py` lines 228-231): sets the playback stop flag
and clears `is_playing_preview`. -/
def stop_preview (s : SessionState) : SessionState :=
  { s with playback_event := true, is_playing_preview := false }

/-- `pause_preview` (`main.py` lines 234-238): only acts when the preview
stream exists and is active; stops the stream and marks playback paused.
The source read position is not touched. -/
def pause_preview (s : SessionState) : SessionState :=
  if s.preview_stream_exists && s.preview_stream_active then
    { s with preview_stream_active := false, playback_paused := true }
  else s

/-- `resume_preview` (`main.py` lines 241-245): only acts when the preview
stream exists and playback is paused; restarts the stream and clears the
paused mark.  The source read position is not touched. -/
def resume_preview (s : SessionState) : SessionState :=
  if s.preview_stream_exists && s.playback_paused then
    { s with preview_stream_active := true, playback_paused := false }
  else s

/-- `discard_recording` (`main.py` lines 262-282): sets the capture stop
flag, stops any preview, clears the frame buffer under the lock, and marks
the session discarded.  No file is written. -/
def discard_recording (s : SessionState) : SessionState :=
  let s1 := stop_preview { s with stop_event := true }
  { s1 with frames := [], is_discarding := true }

/-- `get_elapsed_time` (`main.py` lines 285-292), modelled as the integer
number of elapsed seconds (the source renders this value through
`str(timedelta(...))`, pure presentation).  The open-pause subtraction term
is applied only when paused and no preview is active. -/
def get_elapsed_time (now start_time : Int) (s : SessionState) : Int :=
  if s.pause_event && !s.is_playing_preview then
    (now - start_time) - s.paused_duration - (now - s.last_pause_time)
  else
    (now - start_time) - s.paused_duration

/-- `stop_recording_and_save` (`main.py` lines 295-346), session-state
part plus the written audio body: sets the capture stop flag, stops any
preview, folds a still-open pause interval into `paused_duration` (guarded
by `last_pause_time > 0`), and writes the wave container whose body is the
concatenation of all captured chunks.  Filename selection is modelled
separately by `build_custom_filename`. -/
def stop_recording_and_save (now : Int) (s : SessionState) :
    SessionState × List Nat :=
  let s1 := stop_preview { s with stop_event := true }
  let s2 :=
    if s1.last_pause_time > 0 then
      { s1 with paused_duration := s1.paused_duration + (now - s1.last_pause_time) }
    else s1
  (s2, s2.frames.flatten)

/-- `get_current_state` (`main.py` lines 349-357): derives the session mode
from the three flags, preview first, then pause. -/
def get_current_state (s : SessionState) : SessionMode :=
  if s.is_playing_preview then
    if s.playback_paused then .previewPaused else .previewPlaying
  else if s.pause_event then .recordingPaused
  else .recording

/-- The five keys `handle_keypress` dispatches on. -/
inductive Key where
  | p
  | l
  | s
  | d
  | space
deriving DecidableEq, Repr

/-- `handle_keypress` (`main.py` lines 413-475).  `confirm` models the
typed confirmation read for discard; the `l` branch models the effect of
the spawned `play_preview` thread getting as far as starting the preview
stream (the `time.sleep(0.1)` after `Thread.start`). -/
def handle_keypress (k : Key) (now : Int) (confirm : Bool)
    (s : SessionState) : SessionState × Effects :=
  let st := get_current_state s
  match k with
  | .p =>
    if st = .previewPlaying ∨ st = .previewPaused then
      (s, { noEffect with rejected := true })
    else if st = .recordingPaused then
      (resume_recording now s, noEffect)
    else
      ({ pause_recording now s with last_pause_time := now }, noEffect)
  | .l =>
    if st ≠ .recordingPaused then
      (s, { noEffect with rejected := true })
    else
      (play_preview_start s, noEffect)
  | .s =>
    if s.is_playing_preview then
      (stop_preview s, noEffect)
    else
      let s1 := { s with save_requested := true }
      let r := stop_recording_and_save now s1
      (r.1, { rejected := false, raised_interrupt := true, wrote := some r.2 })
  | .d =>
    if s.is_playing_preview then
      (s, { noEffect with rejected := true })
    else if confirm then
      (discard_recording s, { noEffect with raised_interrupt := true })
    else
      (s, noEffect)
  | .space =>
    if st = .previewPlaying then (pause_preview s, noEffect)
    else if st = .previewPaused then (resume_preview s, noEffect)
    else (s, noEffect)

/-- The `KeyboardInterrupt` handler of `record` (`main.py` lines 399-410):
a default-name save runs only when neither a discard nor an explicit save
already happened; otherwise nothing further is written. -/
def record_interrupt_handler (now : Int) (s : SessionState) :
    SessionState × Option (List Nat) :=
  if !s.is_discarding && !s.save_requested then
    let r := stop_recording_and_save now s
    (r.1, some r.2)
  else (s, none)

/-! Filename sanitization (`main.py` lines 315-330 and 903-946).  User
input is a character list; `isalnum` is the (Unicode-aware) Python
`str.isalnum` predicate, passed as a parameter; on the characters the
claims are about (`.`, `/`, `\`) it is `false`, which appears as an
explicit hypothesis.  `os.path.join` is modelled as POSIX joining with
`/`. -/

/-- The literal punctuation whitelist of the source, the string
`" -_()[]"` in `c.isalnum() or c in " -_()[]"`. -/
def allowed_punct : List Char := [' ', '-', '_', '(', ')', '[', ']']

/-- The sanitization comprehension
`"".join(c for c in custom if c.isalnum() or c in " -_()[]")`. -/
def sanitize_chars (isalnum : Char → Bool) (cs : List Char) : List Char :=
  cs.filter (fun c => isalnum c || allowed_punct.contains c)

/-- Python `str.strip()`: whitespace removed from both ends. -/
def py_strip (cs : List Char) : List Char :=
  ((cs.dropWhile Char.isWhitespace).reverse.dropWhile Char.isWhitespace).reverse

/-- Python `custom.lower().endswith(".wav")`. -/
def ends_with_wav (cs : List Char) : Bool :=
  ['.', 'w', 'a', 'v'].isSuffixOf (cs.map Char.toLower)

/-- The recordings directory (`RECORDINGS_DIR = "recordings"`, line 27). -/
def RECORDINGS_DIR : List Char := "recordings".data

/-- Custom-name branch of `stop_recording_and_save` (`main.py` lines
321-326), for a raw input that is nonempty after the initial `strip()`:
sanitize, strip again, append `.wav` unless already present
(case-insensitively). -/
def build_custom_filename (isalnum : Char → Bool) (custom : List Char) :
    List Char :=
  let c1 := py_strip (sanitize_chars isalnum custom)
  if ends_with_wav c1 then c1 else c1 ++ ['.', 'w', 'a', 'v']

/-- The full save path `os.path.join(RECORDINGS_DIR, custom)` of the
custom-name branch. -/
def save_custom_path (isalnum : Char → Bool) (custom : List Char) :
    List Char :=
  RECORDINGS_DIR ++ '/' :: build_custom_filename isalnum custom

/-- `rename_recording` (`main.py` lines 903-946), name-computation part:
strip, reject empty, sanitize and strip, reject empty, append `.wav`
unless present, refuse when the target path already exists
(`file_exists` models `os.path.exists`).  Returns the new filename when
the rename goes through. -/
def rename_recording (isalnum : Char → Bool)
    (file_exists : List Char → Bool) (raw : List Char) : Option (List Char) :=
  let n0 := py_strip raw
  if n0 = [] then none
  else
    let n1 := py_strip (sanitize_chars isalnum n0)
    if n1 = [] then none
    else
      let n2 := if ends_with_wav n1 then n1 else n1 ++ ['.', 'w', 'a', 'v']
      if file_exists (RECORDINGS_DIR ++ '/' :: n2) then none
      else some n2

/-! Pause/resume timeline (claim C2).  `Reaches t s t' s'` says the
polling loop can move the session from state `s` at time `t` to state `s'`
at time `t' ≥ t` by letting wall-clock time pass and dispatching `p`
keypresses through `handle_keypress` (the only commands of the recording
screen that touch the pause bookkeeping while no preview is active). -/

/-- Reachability along the recording screen's pause/resume timeline. -/
inductive Reaches : Int → SessionState → Int → SessionState → Prop where
  | refl (t : Int) (s : SessionState) : Reaches t s t s
  | wait (t t' t'' : Int) (s s'' : SessionState) (h : t ≤ t')
      (hr : Reaches t' s t'' s'') : Reaches t s t'' s''
  | press (t t' t'' : Int) (s s'' : SessionState) (h : t ≤ t')
      (hr : Reaches t' (handle_keypress .p t' false s).1 t'' s'') :
      Reaches t s t'' s''

/-- Well-formedness of the pause bookkeeping at time `t`: timestamps are
positive wall-clock values, no preview is active, an open pause began
after recording started and not in the future, and the total time
accounted as paused never exceeds the time since recording started. -/
def Inv (t : Int) (s : SessionState) : Prop :=
  0 < s.recording_start_time ∧ s.recording_start_time ≤ t ∧
  0 ≤ s.paused_duration ∧ s.is_playing_preview = false ∧
  (s.pause_event = true →
    s.recording_start_time ≤ s.last_pause_time ∧ s.last_pause_time ≤ t) ∧
  s.paused_duration + (if s.pause_event then t - s.last_pause_time else 0) ≤
    t - s.recording_start_time

/-- Elapsed seconds as the status line queries them: `get_elapsed_time`
applied to the session's own start timestamp. -/
def elapsedAt (t : Int) (s : SessionState) : Int :=
  get_elapsed_time t s.recording_start_time s

instance (t : Int) (s : SessionState) : Decidable (Inv t s) := by
  unfold Inv
  infer_instance

/-! Helper lemmas. -/

/-- Dispatch of `p` while recording is paused (and no preview is active)
resolves to `resume_recording`. -/
lemma handle_p_paused {t : Int} {s : SessionState}
    (hnp : s.is_playing_preview = false) (hp : s.pause_event = true) :
    handle_keypress .p t false s = (resume_recording t s, noEffect) := by
  simp [handle_keypress, get_current_state, hnp, hp]

/-- Dispatch of `p` while actively recording resolves to
`pause_recording` (with the handler's own duplicate timestamp write). -/
lemma handle_p_unpaused {t : Int} {s : SessionState}
    (hnp : s.is_playing_preview = false) (hp : s.pause_event = false) :
    handle_keypress .p t false s =
      ({ s with pause_event := true, last_pause_time := t }, noEffect) := by
  simp [handle_keypress, get_current_state, hnp, hp, pause_recording]

/-- Letting wall-clock time pass preserves the pause-bookkeeping
invariant and never decreases the displayed elapsed time. -/
lemma inv_wait {t t' : Int} {s : SessionState} (h : Inv t s) (hle : t ≤ t') :
    Inv t' s ∧ elapsedAt t s ≤ elapsedAt t' s := by
  obtain ⟨h1, h2, h3, h4, h5, h6⟩ := h
  cases hp : s.pause_event with
  | true =>
    obtain ⟨h5a, h5b⟩ := h5 hp
    simp only [hp, if_true] at h6
    simp [Inv, elapsedAt, get_elapsed_time, hp, h4]
    omega
  | false =>
    simp [hp] at h6
    simp [Inv, elapsedAt, get_elapsed_time, hp, h4]
    omega

/-- Dispatching a `p` keypress at the current time preserves the
invariant and leaves the displayed elapsed time unchanged at that
instant. -/
lemma inv_press {t : Int} {s : SessionState} (h : Inv t s) :
    Inv t (handle_keypress .p t false s).1 ∧
    elapsedAt t (handle_keypress .p t false s).1 = elapsedAt t s := by
  obtain ⟨h1, h2, h3, h4, h5, h6⟩ := h
  cases hp : s.pause_event with
  | true =>
    obtain ⟨h5a, h5b⟩ := h5 hp
    simp only [hp, if_true] at h6
    rw [handle_p_paused h4 hp]
    unfold resume_recording
    rw [if_pos (by omega)]
    simp [Inv, elapsedAt, get_elapsed_time, hp, h4]
    omega
  | false =>
    simp [hp] at h6
    rw [handle_p_unpaused h4 hp]
    simp [Inv, elapsedAt, get_elapsed_time, hp, h4]
    omega

/-- Along any reachable pause/resume timeline the invariant is preserved
and the displayed elapsed time never decreases. -/
lemma reaches_inv {t t' : Int} {s s' : SessionState}
    (hr : Reaches t s t' s') (h : Inv t s) :
    Inv t' s' ∧ elapsedAt t s ≤ elapsedAt t' s' := by
  induction hr with
  | refl t s => exact ⟨h, le_refl _⟩
  | wait t t1 t2 s s2 hle hr ih =>
    obtain ⟨hI, hE⟩ := inv_wait h hle
    obtain ⟨hI2, hE2⟩ := ih hI
    exact ⟨hI2, le_trans hE hE2⟩
  | press t t1 t2 s s2 hle hr ih =>
    obtain ⟨hI, hE⟩ := inv_wait h hle
    obtain ⟨hI2, hE2⟩ := inv_press hI
    obtain ⟨hI3, hE3⟩ := ih hI2
    exact ⟨hI3, by omega⟩

/-- Under the invariant the displayed elapsed time is never negative. -/
lemma inv_elapsed_nonneg {t : Int} {s : SessionState} (h : Inv t s) :
    0 ≤ elapsedAt t s := by
  obtain ⟨h1, h2, h3, h4, h5, h6⟩ := h
  cases hp : s.pause_event with
  | true =>
    simp only [hp, if_true] at h6
    simp [elapsedAt, get_elapsed_time, hp, h4]
    omega
  | false =>
    simp [hp] at h6
    simp [elapsedAt, get_elapsed_time, hp, h4]
    omega

/-- Reduction of `play_preview_start` on a nonempty buffer. -/
lemma play_preview_start_of_ne {s : SessionState} (hne : s.frames ≠ []) :
    play_preview_start s =
      { s with is_playing_preview := true, playback_paused := false,
               playback_event := false, preview_stream_exists := true,
               preview_stream_active := true, preview_pos := 0 } := by
  simp [play_preview_start, save_current_recording_to_temp, hne]

/-- A concrete mid-session state used by witnesses: recording started at
t = 100, paused at t = 110 with one captured chunk. -/
def pausedState : SessionState :=
  { frames := [[1, 2, 3]], stop_event := false, pause_event := true,
    playback_event := false, recording_start_time := 100,
    paused_duration := 0, last_pause_time := 110,
    is_playing_preview := false, playback_paused := false,
    preview_stream_exists := false, preview_stream_active := false,
    preview_pos := 0, is_discarding := false, save_requested := false }

/-! Claim theorems. -/

/-- C3: on every invocation, the capture delivery callback checks
`stop_event` first and `pause_event` second: when stopped it signals
end-of-stream (`paComplete`) and appends nothing; when paused (and not
stopped) it returns exactly `frame_count * channels * 2` zero bytes and
the frame buffer's chunk count does not increase; otherwise it appends the
delivered chunk to the frame buffer. -/
theorem c3_callback_priority (in_data : Chunk) (frame_count channels : Nat)
    (s : SessionState) :
    (s.stop_event = true →
      callback in_data frame_count channels s = (none, true, s)) ∧
    (s.stop_event = false → s.pause_event = true →
      callback in_data frame_count channels s =
        (some (List.replicate (frame_count * channels * 2) 0), false, s) ∧
      (∀ out, (callback in_data frame_count channels s).1 = some out →
        out.length = frame_count * channels * 2 ∧ ∀ b ∈ out, b = 0) ∧
      (callback in_data frame_count channels s).2.2.frames.length =
        s.frames.length) ∧
    (s.stop_event = false → s.pause_event = false →
      callback in_data frame_count channels s =
        (none, false, { s with frames := s.frames ++ [in_data] })) := by
  refine ⟨fun hs => ?_, fun hs hp => ⟨?_, ?_, ?_⟩, fun hs hp => ?_⟩ <;>
    simp_all [callback]

/-- Witness for C3: evaluation at a concrete paused state. -/
theorem c3_callback_priority_witness :
    callback [7] 2 2 pausedState =
      (some (List.replicate 8 0), false, pausedState) :=
  ((c3_callback_priority [7] 2 2 pausedState).2.1 (by decide) (by decide)).1

/-- C4: the derived `SessionMode` follows the first-match priority on the
three flags — preview active and preview paused gives `previewPaused`,
else preview active gives `previewPlaying`, else recording paused gives
`recordingPaused`, else `recording` — and exactly one mode is derived for
any flag combination. -/
theorem c4_mode_derivation (s : SessionState) :
    (s.is_playing_preview = true → s.playback_paused = true →
      get_current_state s = .previewPaused) ∧
    (s.is_playing_preview = true → s.playback_paused = false →
      get_current_state s = .previewPlaying) ∧
    (s.is_playing_preview = false → s.pause_event = true →
      get_current_state s = .recordingPaused) ∧
    (s.is_playing_preview = false → s.pause_event = false →
      get_current_state s = .recording) ∧
    (∃! m : SessionMode, get_current_state s = m) := by
  refine ⟨fun h1 h2 => ?_, fun h1 h2 => ?_, fun h1 h2 => ?_, fun h1 h2 => ?_,
    ⟨get_current_state s, rfl, fun y hy => hy.symm⟩⟩ <;>
    simp [get_current_state, h1, h2]

/-- Witness for C4: the paused-recording flag combination derives
`recordingPaused`. -/
theorem c4_mode_derivation_witness :
    get_current_state pausedState = .recordingPaused :=
  (c4_mode_derivation pausedState).2.2.1 (by decide) (by decide)

/-- C1 counterexample: with a recording started at t = 100 and paused at
t = 110 (elapsed value E = 10), starting a preview and querying the
elapsed time at t = 115 while the preview is active yields 15, not E:
elapsed-time queries during an active preview do not keep returning the
value at which the recording was paused. -/
theorem c1_counterexample :
    get_elapsed_time 112 100 pausedState = 10 ∧
    (play_preview_start pausedState).is_playing_preview = true ∧
    get_elapsed_time 115 100 (play_preview_start pausedState) = 15 ∧
    (15 : Int) ≠ 10 := by
  decide

/-- C1 (amended): for a session paused at elapsed value E, elapsed-time
queries made while a preview is active return `E + (now -
last_pause_time)` — the pause-subtraction term is suppressed, so the value
jumps up at preview start by the time already spent in the open pause and
then advances with the wall clock, never decreasing — and after the
preview completes the session is back in `recordingPaused` with the same
elapsed value E as before the preview started. -/
theorem c1_preview_elapsed (s : SessionState)
    (hp : s.pause_event = true) (hnp : s.is_playing_preview = false)
    (hne : s.frames ≠ []) :
    (∀ t : Int, get_elapsed_time t s.recording_start_time s =
      s.last_pause_time - s.recording_start_time - s.paused_duration) ∧
    (play_preview_start s).is_playing_preview = true ∧
    (∀ t : Int, get_elapsed_time t s.recording_start_time
        (play_preview_start s) =
      (s.last_pause_time - s.recording_start_time - s.paused_duration) +
        (t - s.last_pause_time)) ∧
    (∀ t t' : Int, t ≤ t' →
      get_elapsed_time t s.recording_start_time (play_preview_start s) ≤
        get_elapsed_time t' s.recording_start_time (play_preview_start s)) ∧
    get_current_state (play_preview_finish (play_preview_start s)) =
      .recordingPaused ∧
    (∀ t : Int, get_elapsed_time t s.recording_start_time
        (play_preview_finish (play_preview_start s)) =
      s.last_pause_time - s.recording_start_time - s.paused_duration) := by
  rw [play_preview_start_of_ne hne]
  refine ⟨fun t => ?_, rfl, fun t => ?_, fun t t' hle => ?_, ?_, fun t => ?_⟩ <;>
    simp [get_elapsed_time, get_current_state, play_preview_finish, hp, hnp] <;>
    omega

/-- Witness for C1: the amended behavior evaluated on the concrete paused
state of the counterexample. -/
theorem c1_preview_elapsed_witness :
    get_elapsed_time 115 100 (play_preview_start pausedState) =
      (110 - 100 - 0) + (115 - 110) :=
  ((c1_preview_elapsed pausedState (by decide) (by decide)
    (by decide)).2.2.1 115).trans (by decide)

/-- C7: when stop-and-save runs while a pause interval is open, the open
interval is folded into `paused_duration` exactly once, and the final
duration accounting (elapsed-since-start minus the finalized
`paused_duration`, with no open-pause term left) equals the elapsed value
just before the stop — the paused interval is never double-counted. -/
theorem c7_stop_finalizes_open_pause (s : SessionState) (now : Int)
    (hp : s.pause_event = true) (hnp : s.is_playing_preview = false)
    (hlpa : 0 < s.last_pause_time) :
    (stop_recording_and_save now s).1.paused_duration =
      s.paused_duration + (now - s.last_pause_time) ∧
    (now - (stop_recording_and_save now s).1.recording_start_time) -
        (stop_recording_and_save now s).1.paused_duration =
      get_elapsed_time now s.recording_start_time s := by
  unfold stop_recording_and_save stop_preview
  simp only []
  rw [if_pos (by simpa using hlpa)]
  simp [get_elapsed_time, hp, hnp]
  ring

/-- Witness for C7: stopping the concrete paused session at t = 115 folds
the 5 open paused seconds in once; the final accounting gives 10 seconds,
the elapsed value at the moment of the stop. -/
theorem c7_stop_finalizes_open_pause_witness :
    (stop_recording_and_save 115 pausedState).1.paused_duration =
      0 + (115 - 110) ∧
    (115 - (stop_recording_and_save 115 pausedState).1.recording_start_time) -
        (stop_recording_and_save 115 pausedState).1.paused_duration =
      get_elapsed_time 115 100 pausedState :=
  c7_stop_finalizes_open_pause pausedState 115 (by decide) (by decide)
    (by decide)

/-- C8: with zero captured chunks, requesting a preview is a silent no-op
(no temp file is created and the state is returned untouched), and
stop-and-save writes a container whose audio body is zero-length rather
than failing. -/
theorem c8_empty_buffer (s : SessionState) (now : Int) (h : s.frames = []) :
    save_current_recording_to_temp s = none ∧
    play_preview_start s = s ∧
    (stop_recording_and_save now s).2 = [] := by
  refine ⟨by simp [save_current_recording_to_temp, h],
    by simp [play_preview_start, save_current_recording_to_temp, h], ?_⟩
  unfold stop_recording_and_save stop_preview
  simp only []
  split <;> simp [h]

/-- The concrete session state with an empty frame buffer. -/
def emptyBufState : SessionState := { pausedState with frames := [] }

/-- Witness for C8: evaluation on the concrete empty-buffer state. -/
theorem c8_empty_buffer_witness :
    save_current_recording_to_temp emptyBufState = none ∧
    play_preview_start emptyBufState = emptyBufState ∧
    (stop_recording_and_save 115 emptyBufState).2 = [] :=
  c8_empty_buffer emptyBufState 115 (by decide)

/-- C9: preview pause and resume are idempotent — pausing an
already-paused preview (its output stream no longer active) is a no-op,
pausing twice equals pausing once, resuming when not paused is a no-op —
a pause followed by resume leaves the playback source position unchanged,
and the derived mode is `previewPaused` after pausing a playing preview
and `previewPlaying` after resuming a paused one. -/
theorem c9_preview_pause_resume (s : SessionState) :
    (s.playback_paused = true → s.preview_stream_active = false →
      pause_preview s = s) ∧
    pause_preview (pause_preview s) = pause_preview s ∧
    (s.playback_paused = false → resume_preview s = s) ∧
    resume_preview (resume_preview s) = resume_preview s ∧
    (resume_preview (pause_preview s)).preview_pos = s.preview_pos ∧
    (s.is_playing_preview = true → s.preview_stream_exists = true →
      s.preview_stream_active = true →
      get_current_state (pause_preview s) = .previewPaused) ∧
    (s.is_playing_preview = true → s.preview_stream_exists = true →
      s.playback_paused = true →
      get_current_state (resume_preview s) = .previewPlaying) := by
  by_cases he : s.preview_stream_exists <;>
    by_cases ha : s.preview_stream_active <;>
    by_cases hq : s.playback_paused <;>
    by_cases hip : s.is_playing_preview <;>
    simp [pause_preview, resume_preview, get_current_state, he, ha, hq, hip]

/-- A concrete state with a preview actively playing over the paused
recording. -/
def previewState : SessionState :=
  { pausedState with is_playing_preview := true,
                     preview_stream_exists := true,
                     preview_stream_active := true }

/-- Witness for C9: pausing then resuming the concrete playing preview
leaves the source position unchanged, and pausing it derives
`previewPaused`. -/
theorem c9_preview_pause_resume_witness :
    (resume_preview (pause_preview previewState)).preview_pos =
      previewState.preview_pos ∧
    get_current_state (pause_preview previewState) = .previewPaused :=
  ⟨(c9_preview_pause_resume previewState).2.2.2.2.1,
   (c9_preview_pause_resume previewState).2.2.2.2.2.1 (by decide) (by decide)
     (by decide)⟩

/-- Fields of the session state that `stop_recording_and_save` never
touches, and the audio body it writes. -/
lemma stop_save_fields (now : Int) (s : SessionState) :
    (stop_recording_and_save now s).1.frames = s.frames ∧
    (stop_recording_and_save now s).1.is_discarding = s.is_discarding ∧
    (stop_recording_and_save now s).1.save_requested = s.save_requested ∧
    (stop_recording_and_save now s).2 = s.frames.flatten := by
  simp only [stop_recording_and_save, stop_preview]
  split <;> simp

/-- Dispatch of `s` with no preview active resolves to an explicit save
followed by the exit signal. -/
lemma handle_s_no_preview {now : Int} {confirm : Bool} {s : SessionState}
    (hip : s.is_playing_preview = false) :
    handle_keypress .s now confirm s =
      ((stop_recording_and_save now { s with save_requested := true }).1,
       { rejected := false, raised_interrupt := true,
         wrote := some (stop_recording_and_save now
           { s with save_requested := true }).2 }) := by
  simp [handle_keypress, hip]

/-- The state of a fresh recording session, clock origin at t = 0
(`start_recording`, `main.py` lines 129-149, with `record`'s
`start_time = time.time()` taken as 0 for the §8 pause-arithmetic
scenario). -/
def scenarioStart : SessionState :=
  { frames := [], stop_event := false, pause_event := false,
    playback_event := false, recording_start_time := 0,
    paused_duration := 0, last_pause_time := 0,
    is_playing_preview := false, playback_paused := false,
    preview_stream_exists := false, preview_stream_active := false,
    preview_pos := 0, is_discarding := false, save_requested := false }

/-- C2: pressing `p` at t = 5 (pause) and `p` at t = 8 (resume) on a
recording started at t = 0 makes an elapsed query at t = 10 return 7; in
general, with no preview active, elapsed(now) equals
`(now - start) - paused_duration - (now - last_pause_time if paused else
0)`; elapsed is constant while a pause is open; and along any reachable
pause/resume timeline it is never negative and never decreases. -/
theorem c2_pause_arithmetic :
    get_elapsed_time 10 0
      (handle_keypress .p 8 false
        (handle_keypress .p 5 false scenarioStart).1).1 = 7 ∧
    (∀ (now st : Int) (s : SessionState), s.is_playing_preview = false →
      get_elapsed_time now st s =
        (now - st) - s.paused_duration -
          (if s.pause_event = true then now - s.last_pause_time else 0)) ∧
    (∀ (t t' st : Int) (s : SessionState), s.pause_event = true →
      s.is_playing_preview = false →
      get_elapsed_time t st s = get_elapsed_time t' st s) ∧
    (∀ (t t' : Int) (s s' : SessionState), Inv t s → Reaches t s t' s' →
      0 ≤ elapsedAt t' s' ∧ elapsedAt t s ≤ elapsedAt t' s') := by
  refine ⟨by decide, ?_, ?_, ?_⟩
  · intro now st s h
    by_cases hp : s.pause_event <;> simp [get_elapsed_time, h, hp]
  · intro t t' st s hp h
    simp [get_elapsed_time, hp, h]
    ring
  · intro t t' s s' hI hr
    obtain ⟨hI', hE⟩ := reaches_inv hr hI
    exact ⟨inv_elapsed_nonneg hI', hE⟩

/-- Witness for C2: a fresh session with clock origin 1 satisfies the
invariant, and its elapsed value is non-negative. -/
theorem c2_pause_arithmetic_witness :
    0 ≤ elapsedAt 1 { scenarioStart with recording_start_time := 1 } ∧
    elapsedAt 1 { scenarioStart with recording_start_time := 1 } ≤
      elapsedAt 1 { scenarioStart with recording_start_time := 1 } :=
  c2_pause_arithmetic.2.2.2 1 1 _ _ (by decide) (.refl 1 _)

/-- C5 counterexample: in mode `previewPlaying`, the `s` keypress is not a
rejected no-op — it stops the preview, mutating the preview-session state
and changing the derived mode — so "save-as-exit during preview" is not a
rejected pair that leaves everything unchanged. -/
theorem c5_counterexample :
    get_current_state previewState = .previewPlaying ∧
    (handle_keypress .s 0 false previewState).1 ≠ previewState ∧
    get_current_state (handle_keypress .s 0 false previewState).1 ≠
      get_current_state previewState := by
  decide

/-- C5 (amended): `listen` is accepted only in `recordingPaused`; in every
other mode it is rejected with a hint and the state — frame buffer,
capture session, preview session, and hence the derived mode — is returned
unchanged.  The same holds for pause/resume and discard during preview.
Save during preview, however, is not a rejected pair: it stops the preview
only (the preview-session state changes and the mode leaves the preview
modes) while the frame buffer, the capture-session flags, and the
save/discard flags stay untouched, no file is written, and the session is
not exited. -/
theorem c5_rejected_commands (s : SessionState) (now : Int) (confirm : Bool) :
    (get_current_state s ≠ .recordingPaused →
      handle_keypress .l now confirm s =
        (s, { noEffect with rejected := true })) ∧
    (s.is_playing_preview = true →
      handle_keypress .p now confirm s =
        (s, { noEffect with rejected := true }) ∧
      handle_keypress .d now confirm s =
        (s, { noEffect with rejected := true })) ∧
    (s.is_playing_preview = true →
      (handle_keypress .s now confirm s).1 = stop_preview s ∧
      (handle_keypress .s now confirm s).1.frames = s.frames ∧
      (handle_keypress .s now confirm s).1.stop_event = s.stop_event ∧
      (handle_keypress .s now confirm s).1.pause_event = s.pause_event ∧
      (handle_keypress .s now confirm s).1.paused_duration =
        s.paused_duration ∧
      (handle_keypress .s now confirm s).1.save_requested =
        s.save_requested ∧
      (handle_keypress .s now confirm s).1.is_discarding = s.is_discarding ∧
      (handle_keypress .s now confirm s).1.is_playing_preview = false ∧
      (handle_keypress .s now confirm s).2.raised_interrupt = false ∧
      (handle_keypress .s now confirm s).2.wrote = none) := by
  refine ⟨fun hm => ?_, fun hip => ⟨?_, ?_⟩, fun hip => ?_⟩
  · simp [handle_keypress, hm]
  · by_cases hq : s.playback_paused <;>
      simp [handle_keypress, get_current_state, hip, hq]
  · simp [handle_keypress, hip]
  · simp [handle_keypress, hip, stop_preview, noEffect]

/-- Witness for C5: `listen` pressed while actively recording (the fresh
session is in mode `recording`) is rejected and changes nothing. -/
theorem c5_rejected_commands_witness :
    handle_keypress .l 3 false scenarioStart =
      (scenarioStart, { noEffect with rejected := true }) :=
  (c5_rejected_commands scenarioStart 3 false).1 (by decide)

/-- C6: a confirmed discard clears the frame buffer, writes no file, and
marks the session discarded, so the subsequent interrupt handler saves
nothing; an `s` save writes the buffer exactly, leaves the session
un-discarded, and arms `save_requested` so the interrupt handler does not
save again; and whenever the discard flag is set when the interrupt
handler runs — even together with `save_requested` — discard takes
precedence and no file is written. -/
theorem c6_exit_paths (s : SessionState) (now tlater : Int) :
    (s.is_playing_preview = false →
      (handle_keypress .d now true s).1.frames = [] ∧
      (handle_keypress .d now true s).1.is_discarding = true ∧
      (handle_keypress .d now true s).2.wrote = none ∧
      (handle_keypress .d now true s).2.raised_interrupt = true ∧
      (record_interrupt_handler tlater (handle_keypress .d now true s).1).2 =
        none) ∧
    (∀ confirm, s.is_playing_preview = false → s.is_discarding = false →
      (handle_keypress .s now confirm s).2.wrote = some s.frames.flatten ∧
      (handle_keypress .s now confirm s).2.raised_interrupt = true ∧
      (handle_keypress .s now confirm s).1.save_requested = true ∧
      (handle_keypress .s now confirm s).1.is_discarding = false ∧
      (handle_keypress .s now confirm s).1.frames = s.frames ∧
      (record_interrupt_handler tlater
        (handle_keypress .s now confirm s).1).2 = none) ∧
    (s.is_discarding = true → (record_interrupt_handler tlater s).2 = none) := by
  refine ⟨fun hip => ?_, fun confirm hip hd => ?_, fun hd => ?_⟩
  · simp [handle_keypress, hip, discard_recording, stop_preview,
      record_interrupt_handler, noEffect]
  · obtain ⟨hf, hdisc, hsr, hbody⟩ :=
      stop_save_fields now { s with save_requested := true }
    rw [handle_s_no_preview hip]
    simp only at hf hdisc hsr hbody
    rw [hd] at hf hdisc hsr hbody
    simp [record_interrupt_handler, hf, hdisc, hsr, hbody, hd]
  · simp [record_interrupt_handler, hd]

/-- Witness for C6: confirmed discard on the concrete paused session
clears the buffer, writes nothing, and blocks the interrupt-handler
save. -/
theorem c6_exit_paths_witness :
    (handle_keypress .d 115 true pausedState).1.frames = [] ∧
    (handle_keypress .d 115 true pausedState).1.is_discarding = true ∧
    (handle_keypress .d 115 true pausedState).2.wrote = none ∧
    (handle_keypress .d 115 true pausedState).2.raised_interrupt = true ∧
    (record_interrupt_handler 116 (handle_keypress .d 115 true pausedState).1).2 =
      none :=
  (c6_exit_paths pausedState 115 116).1 (by decide)

/-- Characters surviving sanitization satisfy the filter predicate. -/
lemma mem_sanitize {isalnum : Char → Bool} {cs : List Char} {c : Char}
    (h : c ∈ sanitize_chars isalnum cs) :
    isalnum c = true ∨ c ∈ allowed_punct := by
  simp only [sanitize_chars, List.mem_filter, Bool.or_eq_true] at h
  rcases h.2 with h3 | h3
  · exact Or.inl h3
  · exact Or.inr (by simpa using h3)

/-- Stripping only removes characters. -/
lemma mem_py_strip {cs : List Char} {c : Char} (h : c ∈ py_strip cs) :
    c ∈ cs := by
  unfold py_strip at h
  have h1 := List.mem_reverse.mp h
  have h2 := (List.dropWhile_sublist _).subset h1
  have h3 := List.mem_reverse.mp h2
  exact (List.dropWhile_sublist _).subset h3

/-- ASCII lowering maps only the dot to a dot. -/
lemma toLower_eq_dot {c : Char} (h : c.toLower = '.') : c = '.' := by
  unfold Char.toLower at h
  by_cases hc : c.toNat ≥ 65 ∧ c.toNat ≤ 90
  · exfalso
    rw [if_pos hc] at h
    have hv : (c.toNat + 32).isValidChar := Or.inl (by omega)
    have ht : (Char.ofNat (c.toNat + 32)).toNat = c.toNat + 32 := by
      rw [Char.ofNat, dif_pos hv]
      rfl
    rw [h] at ht
    have hd : ('.' : Char).toNat = 46 := by decide
    omega
  · rw [if_neg hc] at h
    exact h

/-- A dot-free name never case-insensitively ends in `.wav`. -/
lemma ends_with_wav_eq_false {cs : List Char} (h : ('.' : Char) ∉ cs) :
    ends_with_wav cs = false := by
  rw [ends_with_wav]
  by_contra hc
  rw [Bool.not_eq_false] at hc
  have hsuf := List.isSuffixOf_iff_suffix.mp hc
  have hdot : ('.' : Char) ∈ cs.map Char.toLower :=
    hsuf.subset (by decide)
  obtain ⟨a, ha, hla⟩ := List.mem_map.mp hdot
  exact h (toLower_eq_dot hla ▸ ha)

/-- C10: every user-entered custom save name and every rename target is
the stripped, sanitized stem — containing only characters accepted by
`isalnum` or drawn from the whitelist `" -_()[]"` — with `.wav` appended,
contains no path separator (Python's `isalnum` is false on `.`, `/` and
`\`, the explicit hypotheses), and is joined under the recordings
directory; rename additionally goes through only when no file with the
target path already exists. -/
theorem c10_filename_sanitization (isalnum : Char → Bool)
    (hdot : isalnum '.' = false) (hsl : isalnum '/' = false)
    (hbs : isalnum '\\' = false) :
    (∀ custom : List Char,
      build_custom_filename isalnum custom =
        py_strip (sanitize_chars isalnum custom) ++ ['.', 'w', 'a', 'v'] ∧
      (∀ c ∈ py_strip (sanitize_chars isalnum custom),
        isalnum c = true ∨ c ∈ allowed_punct) ∧
      '/' ∉ build_custom_filename isalnum custom ∧
      '\\' ∉ build_custom_filename isalnum custom ∧
      save_custom_path isalnum custom =
        RECORDINGS_DIR ++ '/' :: build_custom_filename isalnum custom) ∧
    (∀ (file_ex : List Char → Bool) (raw newName : List Char),
      rename_recording isalnum file_ex raw = some newName →
      (∃ stem, newName = stem ++ ['.', 'w', 'a', 'v'] ∧
        ∀ c ∈ stem, isalnum c = true ∨ c ∈ allowed_punct) ∧
      '/' ∉ newName ∧ '\\' ∉ newName ∧
      file_ex (RECORDINGS_DIR ++ '/' :: newName) = false) := by
  have stem_ok : ∀ cs : List Char,
      ∀ c ∈ py_strip (sanitize_chars isalnum cs),
        isalnum c = true ∨ c ∈ allowed_punct :=
    fun cs c hc => mem_sanitize (mem_py_strip hc)
  have stem_nodot : ∀ cs : List Char,
      ('.' : Char) ∉ py_strip (sanitize_chars isalnum cs) := by
    intro cs hc
    rcases stem_ok cs '.' hc with h1 | h1
    · rw [hdot] at h1
      cases h1
    · simp [allowed_punct] at h1
  have stem_nosl : ∀ cs : List Char,
      ('/' : Char) ∉ py_strip (sanitize_chars isalnum cs) := by
    intro cs hc
    rcases stem_ok cs '/' hc with h1 | h1
    · rw [hsl] at h1
      cases h1
    · simp [allowed_punct] at h1
  have stem_nobs : ∀ cs : List Char,
      ('\\' : Char) ∉ py_strip (sanitize_chars isalnum cs) := by
    intro cs hc
    rcases stem_ok cs '\\' hc with h1 | h1
    · rw [hbs] at h1
      cases h1
    · simp [allowed_punct] at h1
  refine ⟨fun custom => ?_, fun file_ex raw newName h => ?_⟩
  · have hb : build_custom_filename isalnum custom =
        py_strip (sanitize_chars isalnum custom) ++ ['.', 'w', 'a', 'v'] := by
      simp only [build_custom_filename]
      rw [ends_with_wav_eq_false (stem_nodot custom)]
      simp
    refine ⟨hb, stem_ok custom, ?_, ?_, rfl⟩
    · rw [hb]
      intro hmem
      rcases List.mem_append.mp hmem with h1 | h1
      · exact stem_nosl custom h1
      · simp at h1
    · rw [hb]
      intro hmem
      rcases List.mem_append.mp hmem with h1 | h1
      · exact stem_nobs custom h1
      · simp at h1
  · simp only [rename_recording] at h
    split at h
    · exact absurd h (by simp)
    · split at h
      · exact absurd h (by simp)
      · rw [ends_with_wav_eq_false (stem_nodot (py_strip raw))] at h
        simp only [Bool.false_eq_true, if_false] at h
        split at h
        · exact absurd h (by simp)
        · rename_i hfe
          rw [Option.some.injEq] at h
          subst h
          refine ⟨⟨py_strip (sanitize_chars isalnum (py_strip raw)), rfl,
            stem_ok (py_strip raw)⟩, ?_, ?_, by simpa using hfe⟩
          · intro hmem
            rcases List.mem_append.mp hmem with h1 | h1
            · exact stem_nosl (py_strip raw) h1
            · simp at h1
          · intro hmem
            rcases List.mem_append.mp hmem with h1 | h1
            · exact stem_nobs (py_strip raw) h1
            · simp at h1

/-- Witness for C10: the custom name `my/tape` is sanitized to
`mytape.wav` with the path separator removed. -/
theorem c10_filename_sanitization_witness :
    build_custom_filename Char.isAlphanum "my/tape".data =
      py_strip (sanitize_chars Char.isAlphanum "my/tape".data) ++
        ['.', 'w', 'a', 'v'] ∧
    '/' ∉ build_custom_filename Char.isAlphanum "my/tape".data :=
  ⟨((c10_filename_sanitization Char.isAlphanum (by decide) (by decide)
      (by decide)).1 "my/tape".data).1,
   ((c10_filename_sanitization Char.isAlphanum (by decide) (by decide)
      (by decide)).1 "my/tape".data).2.2.1⟩

end VoiceRecorder
